import Mathlib

/-!
Verification of the CUDA2 native-executable loader
(`experimental/cuda2/native_executable.h`): the package decoder, the
executable loader `iree_hal_cuda2_native_executable_create`, and the
launch-parameter accessor
`iree_hal_cuda2_native_executable_entry_point_kernel_params`.

The repository ships the public header; the loader behaviour (decode,
create, accessor bodies) is modelled from the specification document,
clause by clause, as explicit state-passing functions over a fake driver
capability so that call traces and resource counts are observable.
-/

/-- Largest value representable in a `uint32_t` field of the container. -/
def UINT32_MAX : Nat := 2 ^ 32 - 1

/-- Largest value representable in the `int32_t entry_point` argument. -/
def INT32_MAX : Int := 2 ^ 31 - 1

/-- Smallest value representable in the `int32_t entry_point` argument. -/
def INT32_MIN : Int := -(2 ^ 31)

/-- `i` fits in a signed 32-bit integer (the accessor's index type). -/
def int32_representable (i : Int) : Prop := INT32_MIN ≤ i ∧ i ≤ INT32_MAX

/-- Modelled from the spec: decode-time error taxonomy (§7) of the package
decoder, whose implementation is not in the shown sources. -/
inductive DecodeError
  | malformedContainer
  | invalidDescriptor (index : Nat)
deriving DecidableEq

/-- Modelled from the spec: load-time error taxonomy (§7) of
`iree_hal_cuda2_native_executable_create`, whose implementation is not in
the shown sources. -/
inductive LoadError
  | decode (cause : DecodeError)
  | entryPointCountMismatch
  | moduleLoad (driverErrorCode : Nat)
  | symbolNotFound (name : String)
  | sharedMemoryConfig
deriving DecidableEq

/-- Modelled from the spec: lookup error taxonomy (§7) of the
entry-point accessor, whose implementation is not in the shown sources. -/
inductive LookupError
  | indexOutOfRange
deriving DecidableEq

/-- Modelled from the spec: a per-entry-point record of the input container
format (§6): `{name, blockSize: uint32[3], sharedMemoryBytes: uint32,
sourceFile?, sourceLine?}`. Fields are `Nat`; the decoder validates the
`uint32` bounds. -/
structure RawRecord where
  name : String
  block_size : Nat × Nat × Nat
  shared_memory_size : Nat
  source_filename : String
  source_line : Nat
deriving DecidableEq

/-- Modelled from the spec: the serialized executable blob (§4.1/§6). The
container format is out of scope beyond its header, so structural parsing
failure (truncated data, bad magic or version, offset out of range) is one
abstract constructor, and a structurally well-formed blob carries the
device-code image and the ordered descriptor records. -/
inductive Blob
  | malformed
  | container (image : List Nat) (records : List RawRecord)
deriving DecidableEq

/-- Modelled from the spec: the per-descriptor constraints the decoder
validates (§3, §4.1): non-empty name, every `blockSize` component a
positive integer, and every numeric field within the container's `uint32`
range. -/
def recordValid (r : RawRecord) : Bool :=
  decide (r.name ≠ "") &&
  decide (0 < r.block_size.1) && decide (0 < r.block_size.2.1) &&
  decide (0 < r.block_size.2.2) &&
  decide (r.block_size.1 ≤ UINT32_MAX) && decide (r.block_size.2.1 ≤ UINT32_MAX) &&
  decide (r.block_size.2.2 ≤ UINT32_MAX) &&
  decide (r.shared_memory_size ≤ UINT32_MAX) &&
  decide (r.source_line ≤ UINT32_MAX)

/-- Modelled from the spec: index of the first descriptor record violating
`recordValid`, counting from `i`; `none` when all records are valid. -/
def findInvalid : List RawRecord → Nat → Option Nat
  | [], _ => none
  | r :: rs, i => if recordValid r then findInvalid rs (i + 1) else some i

/-- Modelled from the spec: the package decoder (§4.1), whose
implementation is not in the shown sources.
`decode(blob) -> (deviceImage, descriptors) | DecodeError`: structural
parse failure yields `MalformedContainer`; a descriptor violating the
per-entry-point constraints yields `InvalidDescriptor` with the offending
index; otherwise the image and the ordered descriptor list are returned. -/
def decode : Blob → Except DecodeError (List Nat × List RawRecord)
  | Blob.malformed => Except.error DecodeError.malformedContainer
  | Blob.container image records =>
    match findInvalid records 0 with
    | some i => Except.error (DecodeError.invalidDescriptor i)
    | none => Except.ok (image, records)

/-- Modelled from the spec: the driver capability collaborator (§6), whose
concrete CUDA binding (`iree_hal_cuda2_dynamic_symbols_t`) is not in the
shown sources. `deviceSymbols` lists the names resolvable in an
instantiated module; `instantiateOk` and `sharedMemOptInOk` decide whether
`instantiateModule` and `setMaxDynamicSharedMemory` succeed;
`max_shared_memory` is the device's static shared-memory limit. -/
structure DeviceCapability where
  instantiateOk : Bool
  moduleLoadErrorCode : Nat
  deviceSymbols : List String
  sharedMemOptInOk : String → Bool
  max_shared_memory : Nat

/-- Modelled from the spec: a resolved device function handle, owned by the
module it was resolved from (a weak reference: module id plus symbol
name). -/
structure FunctionHandle where
  cu_module : Nat
  name : String
deriving DecidableEq

/-- Modelled from the spec: one observable driver-capability call (§6),
recorded in order so that temporal and resource claims can be stated. -/
inductive DriverCall
  | instantiateModule
  | resolveFunction (cu_module : Nat) (name : String)
  | setMaxDynamicSharedMemory (fn : FunctionHandle) (bytes : Nat)
  | releaseModule (cu_module : Nat)
deriving DecidableEq

/-- Modelled from the spec: the driver-side state threaded through create
calls; `next_module_id` names the module the next successful
`instantiateModule` yields. -/
structure DriverState where
  next_module_id : Nat
deriving DecidableEq

/-- Number of `instantiateModule` calls in a trace. -/
def countInstantiateCalls (tr : List DriverCall) : Nat :=
  tr.countP fun c => match c with
    | DriverCall.instantiateModule => true
    | _ => false

/-- Number of `releaseModule` calls in a trace. -/
def countReleaseCalls (tr : List DriverCall) : Nat :=
  tr.countP fun c => match c with
    | DriverCall.releaseModule _ => true
    | _ => false

/-- Launch parameters for one entry point, mirroring
`iree_hal_cuda2_kernel_params_t` from the header: pipeline-layout
reference, resolved function, `block_size` (uint32[3]),
`shared_memory_size`, and the trace-only diagnostic fields. Pipeline
layouts are externally owned references, modelled as opaque ids. -/
structure iree_hal_cuda2_kernel_params_t where
  layout : Nat
  function : FunctionHandle
  block_size : Nat × Nat × Nat
  shared_memory_size : Nat
  function_name : String
  source_filename : String
  source_line : Nat
deriving DecidableEq

/-- Modelled from the spec: the loaded unit (§3 NativeExecutable), whose
struct is defined in the implementation file not in the shown sources: the
exclusively owned device module and the ordered kernel-params table. -/
structure iree_hal_cuda2_native_executable_t where
  cu_module : Nat
  entry_points : List iree_hal_cuda2_kernel_params_t
deriving DecidableEq

/-- Modelled from the spec: params supplied to create (§4.2
`ExecutableCreateParams`, the model of `iree_hal_executable_params_t`):
the serialized blob, the caller-declared entry-point count, and the
index-aligned externally-owned pipeline-layout references. -/
structure executable_params_t where
  executable_data : Blob
  declared_count : Nat
  pipeline_layouts : List Nat
deriving DecidableEq

/-- Assembles the KernelParams entry for one descriptor (§3): `blockSize`,
`sharedMemoryBytes` and the diagnostics copied from the descriptor, the
pipeline layout forwarded from the caller, and the resolved handle. -/
def mkKernelParams (layout : Nat) (fn : FunctionHandle) (r : RawRecord) :
    iree_hal_cuda2_kernel_params_t :=
  { layout := layout
    function := fn
    block_size := r.block_size
    shared_memory_size := r.shared_memory_size
    function_name := r.name
    source_filename := r.source_filename
    source_line := r.source_line }

/-- Modelled from the spec: resolution of a single entry point (§4.2 steps
4 and 6): resolve the function by name (missing symbol fails with
`SymbolNotFound{name}`); when `sharedMemoryBytes` exceeds the device's
static limit, request `setMaxDynamicSharedMemory` for that function before
accepting it (failure fails with `SharedMemoryConfig`). Returns the
result together with the driver calls made. -/
def resolveEntryPoint (cap : DeviceCapability) (m : Nat) (r : RawRecord) :
    Except LoadError FunctionHandle × List DriverCall :=
  if r.name ∈ cap.deviceSymbols then
    let fn : FunctionHandle := { cu_module := m, name := r.name }
    if cap.max_shared_memory < r.shared_memory_size then
      if cap.sharedMemOptInOk r.name then
        (Except.ok fn,
         [DriverCall.resolveFunction m r.name,
          DriverCall.setMaxDynamicSharedMemory fn r.shared_memory_size])
      else
        (Except.error LoadError.sharedMemoryConfig,
         [DriverCall.resolveFunction m r.name,
          DriverCall.setMaxDynamicSharedMemory fn r.shared_memory_size])
    else
      (Except.ok fn, [DriverCall.resolveFunction m r.name])
  else
    (Except.error (LoadError.symbolNotFound r.name),
     [DriverCall.resolveFunction m r.name])

/-- Modelled from the spec: the in-order resolution loop over descriptors
(§4.2 step 4), assembling the kernel-params table; `i` is the index of the
first descriptor in `rs` within the whole sequence. The first failure
stops the loop. -/
def resolveLoop (cap : DeviceCapability) (m : Nat) (ls : List Nat) :
    List RawRecord → Nat →
    Except LoadError (List iree_hal_cuda2_kernel_params_t) × List DriverCall
  | [], _ => (Except.ok [], [])
  | r :: rs, i =>
    match resolveEntryPoint cap m r with
    | (Except.error e, tr) => (Except.error e, tr)
    | (Except.ok fn, tr) =>
      match resolveLoop cap m ls rs (i + 1) with
      | (Except.error e, tr2) => (Except.error e, tr ++ tr2)
      | (Except.ok ps, tr2) =>
        (Except.ok (mkKernelParams (ls.getD i 0) fn r :: ps), tr ++ tr2)

/-- Modelled from the spec: `iree_hal_cuda2_native_executable_create`
(§4.2), whose implementation file is not in the shown sources. Decode the
blob (decode failure propagates with no driver call); cross-check the
caller-declared count against the decoded descriptors before any driver
call; instantiate the device module; resolve every entry point in order,
releasing the module before returning on any resolution failure; assemble
the immutable table. Returns the result, the driver state after the call,
and the ordered driver-call trace. -/
def iree_hal_cuda2_native_executable_create (cap : DeviceCapability)
    (st : DriverState) (params : executable_params_t) :
    Except LoadError iree_hal_cuda2_native_executable_t × DriverState ×
      List DriverCall :=
  match decode params.executable_data with
  | Except.error e => (Except.error (LoadError.decode e), st, [])
  | Except.ok (_image, descriptors) =>
    if params.declared_count ≠ descriptors.length then
      (Except.error LoadError.entryPointCountMismatch, st, [])
    else if cap.instantiateOk then
      match resolveLoop cap st.next_module_id params.pipeline_layouts
          descriptors 0 with
      | (Except.error e, tr) =>
        (Except.error e, { next_module_id := st.next_module_id + 1 },
         DriverCall.instantiateModule :: tr ++
           [DriverCall.releaseModule st.next_module_id])
      | (Except.ok table, tr) =>
        (Except.ok { cu_module := st.next_module_id, entry_points := table },
         { next_module_id := st.next_module_id + 1 },
         DriverCall.instantiateModule :: tr)
    else
      (Except.error (LoadError.moduleLoad cap.moduleLoadErrorCode), st,
       [DriverCall.instantiateModule])

/-- Modelled from the spec: the accessor
`iree_hal_cuda2_native_executable_entry_point_kernel_params` (§4.2
getKernelParams), whose implementation file is not in the shown sources.
The index is the header's `int32_t entry_point`; an index outside
`[0, count)` fails with `IndexOutOfRange`, otherwise the stored table
entry is returned. -/
def iree_hal_cuda2_native_executable_entry_point_kernel_params
    (executable : iree_hal_cuda2_native_executable_t) (entry_point : Int) :
    Except LookupError iree_hal_cuda2_kernel_params_t :=
  if h : 0 ≤ entry_point ∧
      entry_point < (executable.entry_points.length : Int) then
    Except.ok (executable.entry_points.get
      ⟨entry_point.toNat, by omega⟩)
  else
    Except.error LookupError.indexOutOfRange

/-- Scenario record from the spec: entry point `matmul`, blockSize
(8,8,1), 4096 shared-memory bytes. -/
def matmulRecord : RawRecord :=
  { name := "matmul", block_size := (8, 8, 1), shared_memory_size := 4096,
    source_filename := "", source_line := 0 }

/-- Scenario record from the spec: entry point `relu`, blockSize
(256,1,1), 0 shared-memory bytes. -/
def reluRecord : RawRecord :=
  { name := "relu", block_size := (256, 1, 1), shared_memory_size := 0,
    source_filename := "", source_line := 0 }

/-- A structurally well-formed demo blob with the two scenario records. -/
def demoBlob : Blob := Blob.container [1, 2, 3] [matmulRecord, reluRecord]

/-- A capability where both demo symbols resolve and instantiation
succeeds; the static shared-memory limit exceeds both demands. -/
def demoCap : DeviceCapability :=
  { instantiateOk := true, moduleLoadErrorCode := 0,
    deviceSymbols := ["matmul", "relu"],
    sharedMemOptInOk := fun _ => true, max_shared_memory := 49152 }

/-- Create params for the demo blob: declared count 2 and two layouts. -/
def demoParams : executable_params_t :=
  { executable_data := demoBlob, declared_count := 2,
    pipeline_layouts := [10, 20] }

/-- Initial driver state. -/
def demoState : DriverState := { next_module_id := 0 }

/-- The executable the demo create yields. -/
def demoExecutable : iree_hal_cuda2_native_executable_t :=
  { cu_module := 0,
    entry_points :=
      [mkKernelParams 10 { cu_module := 0, name := "matmul" } matmulRecord,
       mkKernelParams 20 { cu_module := 0, name := "relu" } reluRecord] }

/-- The driver-call trace of the demo create. -/
def demoTrace : List DriverCall :=
  [DriverCall.instantiateModule,
   DriverCall.resolveFunction 0 "matmul",
   DriverCall.resolveFunction 0 "relu"]

theorem resolveEntryPoint_ok_handle (cap : DeviceCapability) (m : Nat)
    (r : RawRecord) (fn : FunctionHandle) (tr : List DriverCall)
    (h : resolveEntryPoint cap m r = (Except.ok fn, tr)) :
    fn = { cu_module := m, name := r.name } := by
  unfold resolveEntryPoint at h
  split at h
  · split at h
    · split at h
      · simp at h
        exact h.1.symm
      · simp at h
    · simp at h
      exact h.1.symm
  · simp at h

theorem resolveEntryPoint_trace_counts (cap : DeviceCapability) (m : Nat)
    (r : RawRecord) :
    countInstantiateCalls (resolveEntryPoint cap m r).2 = 0 ∧
    countReleaseCalls (resolveEntryPoint cap m r).2 = 0 := by
  unfold resolveEntryPoint
  split
  · split
    · split
      · simp [countInstantiateCalls, countReleaseCalls]
      · simp [countInstantiateCalls, countReleaseCalls]
    · simp [countInstantiateCalls, countReleaseCalls]
  · simp [countInstantiateCalls, countReleaseCalls]

theorem resolveLoop_ok_length (cap : DeviceCapability) (m : Nat)
    (ls : List Nat) :
    ∀ (rs : List RawRecord) (i : Nat)
      (ps : List iree_hal_cuda2_kernel_params_t) (tr : List DriverCall),
      resolveLoop cap m ls rs i = (Except.ok ps, tr) → ps.length = rs.length := by
  intro rs
  induction rs with
  | nil =>
    intro i ps tr h
    simp [resolveLoop] at h
    simp [h.1.symm]
  | cons r rs ih =>
    intro i ps tr h
    rw [resolveLoop] at h
    split at h
    · simp at h
    · split at h
      · simp at h
      · simp at h
        rcases h with ⟨h1, _⟩
        rw [h1.symm]
        simp
        exact ih _ _ _ (by assumption)

theorem resolveLoop_ok_get (cap : DeviceCapability) (m : Nat)
    (ls : List Nat) :
    ∀ (rs : List RawRecord) (i : Nat)
      (ps : List iree_hal_cuda2_kernel_params_t) (tr : List DriverCall),
      resolveLoop cap m ls rs i = (Except.ok ps, tr) →
      ∀ (j : Nat) (hj : j < rs.length) (hp : j < ps.length),
        ps.get ⟨j, hp⟩ =
          mkKernelParams (ls.getD (i + j) 0)
            { cu_module := m, name := (rs.get ⟨j, hj⟩).name }
            (rs.get ⟨j, hj⟩) := by
  intro rs
  induction rs with
  | nil =>
    intro i ps tr h j hj hp
    simp at hj
  | cons r rs ih =>
    intro i ps tr h j hj hp
    rcases hre : resolveEntryPoint cap m r with ⟨res1, tr1⟩
    rw [resolveLoop, hre] at h
    cases res1 with
    | error e => simp at h
    | ok fn =>
      rcases hrl : resolveLoop cap m ls rs (i + 1) with ⟨res2, tr2⟩
      rw [hrl] at h
      cases res2 with
      | error e => simp at h
      | ok ps2 =>
        simp at h
        rcases h with ⟨h1, _⟩
        have hfn := resolveEntryPoint_ok_handle cap m r fn tr1 hre
        cases j with
        | zero =>
          subst h1
          simp [List.get, hfn]
        | succ j =>
          subst h1
          have hj2 : j < rs.length := by simpa using hj
          have hp2 : j < ps2.length := by simpa using hp
          have := ih (i + 1) ps2 tr2 hrl j hj2 hp2
          simpa [Nat.add_assoc, Nat.add_comm 1 j] using this

theorem countInstantiateCalls_append (t1 t2 : List DriverCall) :
    countInstantiateCalls (t1 ++ t2) =
      countInstantiateCalls t1 + countInstantiateCalls t2 := by
  simp [countInstantiateCalls, List.countP_append]

theorem countReleaseCalls_append (t1 t2 : List DriverCall) :
    countReleaseCalls (t1 ++ t2) =
      countReleaseCalls t1 + countReleaseCalls t2 := by
  simp [countReleaseCalls, List.countP_append]

theorem resolveLoop_trace_counts (cap : DeviceCapability) (m : Nat)
    (ls : List Nat) :
    ∀ (rs : List RawRecord) (i : Nat),
      countInstantiateCalls (resolveLoop cap m ls rs i).2 = 0 ∧
      countReleaseCalls (resolveLoop cap m ls rs i).2 = 0 := by
  intro rs
  induction rs with
  | nil =>
    intro i
    simp [resolveLoop, countInstantiateCalls, countReleaseCalls]
  | cons r rs ih =>
    intro i
    have hep := resolveEntryPoint_trace_counts cap m r
    rcases hre : resolveEntryPoint cap m r with ⟨res1, tr1⟩
    rw [hre] at hep
    simp at hep
    rw [resolveLoop, hre]
    cases res1 with
    | error e => simpa using hep
    | ok fn =>
      have hrec := ih (i + 1)
      rcases hrl : resolveLoop cap m ls rs (i + 1) with ⟨res2, tr2⟩
      rw [hrl] at hrec
      simp at hrec
      cases res2 with
      | error e =>
        simp [countInstantiateCalls_append, countReleaseCalls_append,
          hep.1, hep.2, hrec.1, hrec.2]
      | ok ps2 =>
        simp [countInstantiateCalls_append, countReleaseCalls_append,
          hep.1, hep.2, hrec.1, hrec.2]

theorem countInstantiateCalls_cons_inst (t : List DriverCall) :
    countInstantiateCalls (DriverCall.instantiateModule :: t) =
      countInstantiateCalls t + 1 := by
  simp [countInstantiateCalls, List.countP_cons]

theorem countReleaseCalls_cons_inst (t : List DriverCall) :
    countReleaseCalls (DriverCall.instantiateModule :: t) =
      countReleaseCalls t := by
  simp [countReleaseCalls, List.countP_cons]

theorem countInstantiateCalls_cons_release (m : Nat) (t : List DriverCall) :
    countInstantiateCalls (DriverCall.releaseModule m :: t) =
      countInstantiateCalls t := by
  simp [countInstantiateCalls, List.countP_cons]

theorem countReleaseCalls_cons_release (m : Nat) (t : List DriverCall) :
    countReleaseCalls (DriverCall.releaseModule m :: t) =
      countReleaseCalls t + 1 := by
  simp [countReleaseCalls, List.countP_cons]

theorem resolveEntryPoint_missing (cap : DeviceCapability) (m : Nat)
    (r : RawRecord) (hmem : r.name ∉ cap.deviceSymbols) :
    resolveEntryPoint cap m r =
      (Except.error (LoadError.symbolNotFound r.name),
       [DriverCall.resolveFunction m r.name]) := by
  unfold resolveEntryPoint
  rw [if_neg hmem]

theorem resolveEntryPoint_ok_of (cap : DeviceCapability) (m : Nat)
    (r : RawRecord) (hmem : r.name ∈ cap.deviceSymbols)
    (hopt : cap.max_shared_memory < r.shared_memory_size →
      cap.sharedMemOptInOk r.name = true) :
    (resolveEntryPoint cap m r).1 =
      Except.ok { cu_module := m, name := r.name } := by
  unfold resolveEntryPoint
  rw [if_pos hmem]
  by_cases hex : cap.max_shared_memory < r.shared_memory_size
  · rw [if_pos hex, if_pos (by simp [hopt hex])]
  · rw [if_neg hex]

theorem resolveEntryPoint_optin_fails (cap : DeviceCapability) (m : Nat)
    (r : RawRecord) (hmem : r.name ∈ cap.deviceSymbols)
    (hex : cap.max_shared_memory < r.shared_memory_size)
    (hopt : cap.sharedMemOptInOk r.name = false) :
    (resolveEntryPoint cap m r).1 =
      Except.error LoadError.sharedMemoryConfig := by
  unfold resolveEntryPoint
  rw [if_pos hmem, if_pos hex, if_neg (by simp [hopt])]

theorem resolveEntryPoint_ok_optin_called (cap : DeviceCapability) (m : Nat)
    (r : RawRecord) (fn : FunctionHandle) (tr : List DriverCall)
    (h : resolveEntryPoint cap m r = (Except.ok fn, tr))
    (hex : cap.max_shared_memory < r.shared_memory_size) :
    DriverCall.setMaxDynamicSharedMemory
      { cu_module := m, name := r.name } r.shared_memory_size ∈ tr := by
  unfold resolveEntryPoint at h
  by_cases hmem : r.name ∈ cap.deviceSymbols
  · by_cases hopt : cap.sharedMemOptInOk r.name = true
    · simp [hmem, hex, hopt] at h
      rcases h with ⟨h1, h2⟩
      rw [h2.symm]
      simp
    · simp [hmem, hex, hopt] at h
  · simp [hmem] at h

theorem resolveLoop_ok_optin_called (cap : DeviceCapability) (m : Nat)
    (ls : List Nat) :
    ∀ (rs : List RawRecord) (i : Nat)
      (ps : List iree_hal_cuda2_kernel_params_t) (tr : List DriverCall),
      resolveLoop cap m ls rs i = (Except.ok ps, tr) →
      ∀ r ∈ rs, cap.max_shared_memory < r.shared_memory_size →
        DriverCall.setMaxDynamicSharedMemory
          { cu_module := m, name := r.name } r.shared_memory_size ∈ tr := by
  intro rs
  induction rs with
  | nil =>
    intro i ps tr h r hr
    simp at hr
  | cons r0 rs ih =>
    intro i ps tr h r hr hex
    rcases hre : resolveEntryPoint cap m r0 with ⟨res1, tr1⟩
    rw [resolveLoop, hre] at h
    cases res1 with
    | error e => simp at h
    | ok fn =>
      rcases hrl : resolveLoop cap m ls rs (i + 1) with ⟨res2, tr2⟩
      rw [hrl] at h
      cases res2 with
      | error e => simp at h
      | ok ps2 =>
        simp at h
        rcases h with ⟨_, htr⟩
        rw [htr.symm]
        rcases List.mem_cons.mp hr with hr0 | hrs
        · subst hr0
          exact List.mem_append_left tr2
            (resolveEntryPoint_ok_optin_called cap m r fn tr1 hre hex)
        · exact List.mem_append_right tr1 (ih (i + 1) ps2 tr2 hrl r hrs hex)

theorem resolveLoop_symbol_missing (cap : DeviceCapability) (m : Nat)
    (ls : List Nat) :
    ∀ (rs : List RawRecord) (i : Nat),
      (∀ r ∈ rs, cap.max_shared_memory < r.shared_memory_size →
        cap.sharedMemOptInOk r.name = true) →
      (∃ r ∈ rs, r.name ∉ cap.deviceSymbols) →
      ∃ nm, nm ∉ cap.deviceSymbols ∧
        (resolveLoop cap m ls rs i).1 =
          Except.error (LoadError.symbolNotFound nm) := by
  intro rs
  induction rs with
  | nil =>
    intro i hopt hex
    simp at hex
  | cons r0 rs ih =>
    intro i hopt hex
    by_cases hmem : r0.name ∈ cap.deviceSymbols
    · have hok := resolveEntryPoint_ok_of cap m r0 hmem
        (hopt r0 (List.mem_cons_self r0 rs))
      have hex2 : ∃ r ∈ rs, r.name ∉ cap.deviceSymbols := by
        rcases hex with ⟨r, hr, hrn⟩
        rcases List.mem_cons.mp hr with hr0 | hrs
        · subst hr0
          exact absurd hmem hrn
        · exact ⟨r, hrs, hrn⟩
      rcases ih (i + 1) (fun r hr => hopt r (List.mem_cons_of_mem r0 hr))
        hex2 with ⟨nm, hnm, hloop⟩
      refine ⟨nm, hnm, ?_⟩
      rcases hre : resolveEntryPoint cap m r0 with ⟨res1, tr1⟩
      rw [hre] at hok
      simp at hok
      subst hok
      rcases hrl : resolveLoop cap m ls rs (i + 1) with ⟨res2, tr2⟩
      rw [hrl] at hloop
      simp at hloop
      subst hloop
      rw [resolveLoop, hre, hrl]
    · refine ⟨r0.name, hmem, ?_⟩
      rw [resolveLoop, resolveEntryPoint_missing cap m r0 hmem]

theorem resolveLoop_optin_fails (cap : DeviceCapability) (m : Nat)
    (ls : List Nat) :
    ∀ (rs : List RawRecord) (i : Nat),
      (∀ r ∈ rs, r.name ∈ cap.deviceSymbols) →
      (∃ r ∈ rs, cap.max_shared_memory < r.shared_memory_size ∧
        cap.sharedMemOptInOk r.name = false) →
      (resolveLoop cap m ls rs i).1 =
        Except.error LoadError.sharedMemoryConfig := by
  intro rs
  induction rs with
  | nil =>
    intro i hmem hex
    simp at hex
  | cons r0 rs ih =>
    intro i hmem hex
    have hmem0 : r0.name ∈ cap.deviceSymbols :=
      hmem r0 (List.mem_cons_self r0 rs)
    by_cases hbad : cap.max_shared_memory < r0.shared_memory_size ∧
        cap.sharedMemOptInOk r0.name = false
    · have herr := resolveEntryPoint_optin_fails cap m r0 hmem0 hbad.1 hbad.2
      rcases hre : resolveEntryPoint cap m r0 with ⟨res1, tr1⟩
      rw [hre] at herr
      simp at herr
      subst herr
      rw [resolveLoop, hre]
    · have hok := resolveEntryPoint_ok_of cap m r0 hmem0 (by
        intro hx
        by_contra hno
        exact hbad ⟨hx, by simpa using hno⟩)
      have hex2 : ∃ r ∈ rs, cap.max_shared_memory < r.shared_memory_size ∧
          cap.sharedMemOptInOk r.name = false := by
        rcases hex with ⟨r, hr, hrp⟩
        rcases List.mem_cons.mp hr with hr0 | hrs
        · subst hr0
          exact absurd hrp hbad
        · exact ⟨r, hrs, hrp⟩
      have hloop := ih (i + 1)
        (fun r hr => hmem r (List.mem_cons_of_mem r0 hr)) hex2
      rcases hre : resolveEntryPoint cap m r0 with ⟨res1, tr1⟩
      rw [hre] at hok
      simp at hok
      subst hok
      rcases hrl : resolveLoop cap m ls rs (i + 1) with ⟨res2, tr2⟩
      rw [hrl] at hloop
      simp at hloop
      subst hloop
      rw [resolveLoop, hre, hrl]

theorem create_ok_spec (cap : DeviceCapability) (st : DriverState)
    (params : executable_params_t) (e : iree_hal_cuda2_native_executable_t)
    (st' : DriverState) (tr : List DriverCall)
    (h : iree_hal_cuda2_native_executable_create cap st params =
      (Except.ok e, st', tr)) :
    ∃ img descs,
      decode params.executable_data = Except.ok (img, descs) ∧
      params.declared_count = descs.length ∧
      cap.instantiateOk = true ∧
      e.cu_module = st.next_module_id ∧
      st' = { next_module_id := st.next_module_id + 1 } ∧
      e.entry_points.length = descs.length ∧
      (∀ (j : Nat) (hj : j < descs.length) (hp : j < e.entry_points.length),
        e.entry_points.get ⟨j, hp⟩ =
          mkKernelParams (params.pipeline_layouts.getD j 0)
            { cu_module := st.next_module_id,
              name := (descs.get ⟨j, hj⟩).name }
            (descs.get ⟨j, hj⟩)) ∧
      (∀ r ∈ descs, cap.max_shared_memory < r.shared_memory_size →
        DriverCall.setMaxDynamicSharedMemory
          { cu_module := st.next_module_id, name := r.name }
          r.shared_memory_size ∈ tr) ∧
      countInstantiateCalls tr = 1 ∧ countReleaseCalls tr = 0 := by
  unfold iree_hal_cuda2_native_executable_create at h
  rcases hdec : decode params.executable_data with e0 | pr
  · rw [hdec] at h
    simp at h
  · rcases pr with ⟨img, descs⟩
    rw [hdec] at h
    refine ⟨img, descs, rfl, ?_⟩
    by_cases hcount : params.declared_count ≠ descs.length
    · simp [hcount] at h
    · simp only [hcount, if_false] at h
      push_neg at hcount
      by_cases hinst : cap.instantiateOk
      · simp only [hinst, if_true] at h
        rcases hrl : resolveLoop cap st.next_module_id
            params.pipeline_layouts descs 0 with ⟨res, trl⟩
        rw [hrl] at h
        cases res with
        | error err => simp at h
        | ok table =>
          simp at h
          rcases h with ⟨he, hst, htr⟩
          subst he
          subst hst
          subst htr
          have hlen := resolveLoop_ok_length cap st.next_module_id
            params.pipeline_layouts descs 0 table trl hrl
          have hget := resolveLoop_ok_get cap st.next_module_id
            params.pipeline_layouts descs 0 table trl hrl
          have hcounts := resolveLoop_trace_counts cap st.next_module_id
            params.pipeline_layouts descs 0
          rw [hrl] at hcounts
          simp at hcounts
          refine ⟨hcount, hinst, rfl, rfl, by simpa using hlen, ?_, ?_, ?_, ?_⟩
          · intro j hj hp
            have hp2 : j < table.length := by simpa using hp
            have hj0 := hget j hj hp2
            simp only [Nat.zero_add] at hj0
            exact hj0
          · intro r hr hex
            exact List.mem_cons_of_mem _
              (resolveLoop_ok_optin_called cap st.next_module_id
                params.pipeline_layouts descs 0 table trl hrl r hr hex)
          · rw [countInstantiateCalls_cons_inst, hcounts.1]
          · rw [countReleaseCalls_cons_inst, hcounts.2]
      · simp [hinst] at h

theorem create_of_loop_error (cap : DeviceCapability) (st : DriverState)
    (params : executable_params_t) (img : List Nat) (descs : List RawRecord)
    (err : LoadError)
    (hdec : decode params.executable_data = Except.ok (img, descs))
    (hcount : params.declared_count = descs.length)
    (hinst : cap.instantiateOk = true)
    (hloop : (resolveLoop cap st.next_module_id params.pipeline_layouts
      descs 0).1 = Except.error err) :
    ∃ tr, iree_hal_cuda2_native_executable_create cap st params =
      (Except.error err, { next_module_id := st.next_module_id + 1 }, tr) := by
  unfold iree_hal_cuda2_native_executable_create
  rw [hdec]
  simp only [hcount, ne_eq, not_true_eq_false, if_false, hinst, if_true]
  rcases hrl : resolveLoop cap st.next_module_id params.pipeline_layouts
    descs 0 with ⟨res, trl⟩
  rw [hrl] at hloop
  simp at hloop
  subst hloop
  exact ⟨_, rfl⟩

theorem create_error_rollback_counts (cap : DeviceCapability)
    (st : DriverState) (params : executable_params_t) (err : LoadError)
    (st' : DriverState) (tr : List DriverCall)
    (hinst : cap.instantiateOk = true)
    (h : iree_hal_cuda2_native_executable_create cap st params =
      (Except.error err, st', tr)) :
    countReleaseCalls tr = countInstantiateCalls tr := by
  unfold iree_hal_cuda2_native_executable_create at h
  rcases hdec : decode params.executable_data with e0 | pr
  · rw [hdec] at h
    simp at h
    rw [h.2.2]
    simp [countInstantiateCalls, countReleaseCalls]
  · rcases pr with ⟨img, descs⟩
    rw [hdec] at h
    by_cases hcount : params.declared_count ≠ descs.length
    · simp [hcount] at h
      rw [h.2.2]
      simp [countInstantiateCalls, countReleaseCalls]
    · simp only [hcount, if_false, hinst, if_true] at h
      have hcounts := resolveLoop_trace_counts cap st.next_module_id
        params.pipeline_layouts descs 0
      rcases hrl : resolveLoop cap st.next_module_id params.pipeline_layouts
        descs 0 with ⟨res, trl⟩
      rw [hrl] at h
      rw [hrl] at hcounts
      simp at hcounts
      cases res with
      | error e =>
        simp at h
        rw [h.2.2.symm]
        rw [countReleaseCalls_cons_inst, countInstantiateCalls_cons_inst,
          countReleaseCalls_append, countInstantiateCalls_append,
          hcounts.1, hcounts.2]
        simp [countInstantiateCalls, countReleaseCalls]
      | ok table => simp at h

theorem findInvalid_none_iff :
    ∀ (rs : List RawRecord) (k : Nat),
      findInvalid rs k = none ↔ ∀ r ∈ rs, recordValid r = true := by
  intro rs
  induction rs with
  | nil =>
    intro k
    simp [findInvalid]
  | cons r rs ih =>
    intro k
    by_cases hv : recordValid r
    · rw [findInvalid, if_pos hv]
      rw [ih (k + 1)]
      simp [hv]
    · rw [findInvalid, if_neg hv]
      simp
      intro hvr
      exact absurd hvr (by simpa using hv)

theorem findInvalid_some_spec :
    ∀ (rs : List RawRecord) (k : Nat) (j : Nat),
      findInvalid rs k = some j →
      k ≤ j ∧ ∃ r, rs.get? (j - k) = some r ∧ recordValid r = false := by
  intro rs
  induction rs with
  | nil =>
    intro k j h
    simp [findInvalid] at h
  | cons r rs ih =>
    intro k j h
    by_cases hv : recordValid r
    · rw [findInvalid, if_pos hv] at h
      rcases ih (k + 1) j h with ⟨hkj, r2, hr2, hr2v⟩
      refine ⟨by omega, r2, ?_, hr2v⟩
      have hjk : j - k = (j - (k + 1)) + 1 := by omega
      rw [hjk]
      simpa using hr2
    · rw [findInvalid, if_neg hv] at h
      simp at h
      subst h
      exact ⟨Nat.le_refl k, r, by simp, by simpa using hv⟩

/-- C1: for every executable returned by a successful create, the length of
the kernel-params table equals the length of the decoded descriptor
sequence and equals the caller-declared entry-point count — the loader
never produces a partially populated table. -/
theorem C1_create_table_complete (cap : DeviceCapability) (st : DriverState)
    (params : executable_params_t) (e : iree_hal_cuda2_native_executable_t)
    (st' : DriverState) (tr : List DriverCall) (img : List Nat)
    (descs : List RawRecord)
    (h : iree_hal_cuda2_native_executable_create cap st params =
      (Except.ok e, st', tr))
    (hdec : decode params.executable_data = Except.ok (img, descs)) :
    e.entry_points.length = descs.length ∧
    e.entry_points.length = params.declared_count := by
  rcases create_ok_spec cap st params e st' tr h with
    ⟨img2, descs2, hdec2, hcount, _, _, _, hlen, _⟩
  rw [hdec2] at hdec
  simp at hdec
  rcases hdec with ⟨_, hdescs⟩
  subst hdescs
  exact ⟨hlen, by omega⟩

/-- C1 witness: the two-entry-point demo package yields a table of length
2, matching both the decoded descriptors and the declared count. -/
theorem C1_create_table_complete_witness :
    iree_hal_cuda2_native_executable_create demoCap demoState demoParams =
      (Except.ok demoExecutable, { next_module_id := 1 }, demoTrace) ∧
    decode demoParams.executable_data =
      Except.ok ([1, 2, 3], [matmulRecord, reluRecord]) ∧
    (demoExecutable.entry_points.length = [matmulRecord, reluRecord].length ∧
     demoExecutable.entry_points.length = demoParams.declared_count) :=
  ⟨rfl, rfl,
   C1_create_table_complete demoCap demoState demoParams demoExecutable
     { next_module_id := 1 } demoTrace [1, 2, 3] [matmulRecord, reluRecord]
     rfl rfl⟩

/-- C4: when the caller-declared entry-point count differs from the number
of decoded descriptor records, create fails with
`EntryPointCountMismatch`, the driver state is untouched, and the
driver-call trace is empty — `instantiateModule` (and every other driver
operation) is never invoked. -/
theorem C4_count_mismatch_before_any_driver_call (cap : DeviceCapability)
    (st : DriverState) (params : executable_params_t) (img : List Nat)
    (descs : List RawRecord)
    (hdec : decode params.executable_data = Except.ok (img, descs))
    (hne : params.declared_count ≠ descs.length) :
    iree_hal_cuda2_native_executable_create cap st params =
      (Except.error LoadError.entryPointCountMismatch, st, []) := by
  unfold iree_hal_cuda2_native_executable_create
  rw [hdec]
  simp [hne]

/-- C4 witness: a package with one descriptor but declared count 2 fails
with `EntryPointCountMismatch` and makes no driver call. -/
theorem C4_count_mismatch_witness :
    decode (Blob.container [1] [matmulRecord]) =
      Except.ok ([1], [matmulRecord]) ∧
    (2 : Nat) ≠ [matmulRecord].length ∧
    iree_hal_cuda2_native_executable_create demoCap demoState
      { executable_data := Blob.container [1] [matmulRecord],
        declared_count := 2, pipeline_layouts := [10, 20] } =
      (Except.error LoadError.entryPointCountMismatch, demoState, []) :=
  ⟨rfl, by decide,
   C4_count_mismatch_before_any_driver_call demoCap demoState
     { executable_data := Blob.container [1] [matmulRecord],
       declared_count := 2, pipeline_layouts := [10, 20] }
     [1] [matmulRecord] rfl (by decide)⟩

/-- C5: the accessor fails with `IndexOutOfRange` exactly when the entry
point index lies outside `[0, count)`: for every negative index and every
index at least the entry-point count, and only for those. -/
theorem C5_accessor_out_of_range_iff
    (e : iree_hal_cuda2_native_executable_t) (i : Int) :
    iree_hal_cuda2_native_executable_entry_point_kernel_params e i =
      Except.error LookupError.indexOutOfRange ↔
    (i < 0 ∨ (e.entry_points.length : Int) ≤ i) := by
  unfold iree_hal_cuda2_native_executable_entry_point_kernel_params
  by_cases h : 0 ≤ i ∧ i < (e.entry_points.length : Int)
  · rw [dif_pos h]
    simp
    omega
  · rw [dif_neg h]
    simp
    omega

/-- C2: for every executable produced by a successful create and every
in-range index, the accessor succeeds and returns kernel params whose
`block_size` (all three components) and `shared_memory_size` equal the
decoded descriptor's values unchanged, and whose layout is the
caller-supplied pipeline-layout reference for that index, forwarded
without interpretation. -/
theorem C2_kernel_params_values_forwarded (cap : DeviceCapability)
    (st : DriverState) (params : executable_params_t)
    (e : iree_hal_cuda2_native_executable_t) (st' : DriverState)
    (tr : List DriverCall) (img : List Nat) (descs : List RawRecord)
    (h : iree_hal_cuda2_native_executable_create cap st params =
      (Except.ok e, st', tr))
    (hdec : decode params.executable_data = Except.ok (img, descs))
    (hl : params.pipeline_layouts.length = params.declared_count)
    (i : Nat) (hi : i < descs.length) :
    ∃ p, iree_hal_cuda2_native_executable_entry_point_kernel_params e
        (Int.ofNat i) = Except.ok p ∧
      p.block_size = (descs.get ⟨i, hi⟩).block_size ∧
      p.shared_memory_size = (descs.get ⟨i, hi⟩).shared_memory_size ∧
      ∃ hil : i < params.pipeline_layouts.length,
        p.layout = params.pipeline_layouts.get ⟨i, hil⟩ := by
  rcases create_ok_spec cap st params e st' tr h with
    ⟨img2, descs2, hdec2, hcount, _hinst, _hcu, _hst, hlen, hget, _hopt, _⟩
  rw [hdec2] at hdec
  simp at hdec
  rcases hdec with ⟨_, hdescs⟩
  subst hdescs
  have hp : i < e.entry_points.length := by omega
  have hil : i < params.pipeline_layouts.length := by omega
  have hcond : 0 ≤ (Int.ofNat i) ∧
      (Int.ofNat i) < (e.entry_points.length : Int) := by
    constructor
    · exact Int.ofNat_nonneg i
    · rw [Int.ofNat_eq_coe]
      exact_mod_cast hp
  refine ⟨e.entry_points.get ⟨i, hp⟩, ?_, ?_, ?_, hil, ?_⟩
  · unfold iree_hal_cuda2_native_executable_entry_point_kernel_params
    rw [dif_pos hcond]
    rfl
  · rw [hget i hi hp]
    rfl
  · rw [hget i hi hp]
    rfl
  · rw [hget i hi hp]
    show params.pipeline_layouts.getD i 0 = _
    rw [List.getD_eq_getElem params.pipeline_layouts 0 hil,
      List.get_eq_getElem]

/-- C2 witness: in the demo package, entry point 0 yields blockSize
(8,8,1), 4096 shared-memory bytes, and the caller's layout reference 10. -/
theorem C2_kernel_params_values_forwarded_witness :
    iree_hal_cuda2_native_executable_create demoCap demoState demoParams =
      (Except.ok demoExecutable, { next_module_id := 1 }, demoTrace) ∧
    decode demoParams.executable_data =
      Except.ok ([1, 2, 3], [matmulRecord, reluRecord]) ∧
    demoParams.pipeline_layouts.length = demoParams.declared_count ∧
    0 < [matmulRecord, reluRecord].length ∧
    ∃ p, iree_hal_cuda2_native_executable_entry_point_kernel_params
        demoExecutable (Int.ofNat 0) = Except.ok p ∧
      p.block_size = matmulRecord.block_size ∧
      p.shared_memory_size = matmulRecord.shared_memory_size ∧
      ∃ hil : 0 < demoParams.pipeline_layouts.length,
        p.layout = demoParams.pipeline_layouts.get ⟨0, hil⟩ :=
  ⟨rfl, rfl, rfl, by decide,
   C2_kernel_params_values_forwarded demoCap demoState demoParams
     demoExecutable { next_module_id := 1 } demoTrace [1, 2, 3]
     [matmulRecord, reluRecord] rfl rfl rfl 0 (by decide)⟩

/-- C3: with instantiation succeeding, every failing create has released
exactly as many modules as it instantiated (no device resource remains
held); in particular a descriptor naming a symbol absent from the device
image makes create fail with `SymbolNotFound` for an absent name, with the
module released before the error is returned. -/
theorem C3_failure_releases_module (cap : DeviceCapability)
    (st : DriverState) (params : executable_params_t)
    (hinst : cap.instantiateOk = true) :
    (∀ err st' tr,
      iree_hal_cuda2_native_executable_create cap st params =
        (Except.error err, st', tr) →
      countReleaseCalls tr = countInstantiateCalls tr) ∧
    (∀ img descs,
      decode params.executable_data = Except.ok (img, descs) →
      params.declared_count = descs.length →
      (∀ r ∈ descs, cap.max_shared_memory < r.shared_memory_size →
        cap.sharedMemOptInOk r.name = true) →
      (∃ r ∈ descs, r.name ∉ cap.deviceSymbols) →
      ∃ nm tr, nm ∉ cap.deviceSymbols ∧
        iree_hal_cuda2_native_executable_create cap st params =
          (Except.error (LoadError.symbolNotFound nm),
           { next_module_id := st.next_module_id + 1 }, tr) ∧
        countReleaseCalls tr = countInstantiateCalls tr) := by
  constructor
  · intro err st' tr h
    exact create_error_rollback_counts cap st params err st' tr hinst h
  · intro img descs hdec hcount hopt hmiss
    rcases resolveLoop_symbol_missing cap st.next_module_id
      params.pipeline_layouts descs 0 hopt hmiss with ⟨nm, hnm, hloop⟩
    rcases create_of_loop_error cap st params img descs
      (LoadError.symbolNotFound nm) hdec hcount hinst hloop with ⟨tr, hcr⟩
    exact ⟨nm, tr, hnm, hcr,
      create_error_rollback_counts cap st params _ _ tr hinst hcr⟩

/-- A capability in whose device image only `matmul` is present. -/
def capNoRelu : DeviceCapability :=
  { instantiateOk := true, moduleLoadErrorCode := 0,
    deviceSymbols := ["matmul"],
    sharedMemOptInOk := fun _ => true, max_shared_memory := 49152 }

/-- The trace of the demo create against `capNoRelu`: the module is
instantiated, `matmul` resolves, `relu` fails, the module is released. -/
def trNoRelu : List DriverCall :=
  [DriverCall.instantiateModule, DriverCall.resolveFunction 0 "matmul",
   DriverCall.resolveFunction 0 "relu", DriverCall.releaseModule 0]

/-- C3 witness: against `capNoRelu`, the demo create fails with
`SymbolNotFound "relu"` and its trace releases exactly the one module it
instantiated. -/
theorem C3_failure_releases_module_witness :
    capNoRelu.instantiateOk = true ∧
    iree_hal_cuda2_native_executable_create capNoRelu demoState demoParams =
      (Except.error (LoadError.symbolNotFound "relu"),
       { next_module_id := 1 }, trNoRelu) ∧
    countReleaseCalls trNoRelu = countInstantiateCalls trNoRelu :=
  ⟨rfl, rfl,
   (C3_failure_releases_module capNoRelu demoState demoParams rfl).1
     (LoadError.symbolNotFound "relu") { next_module_id := 1 } trNoRelu rfl⟩

/-- C6: for every entry point whose shared-memory demand exceeds the
device's static limit, a successful create has requested
`setMaxDynamicSharedMemory` from the driver for that specific resolved
function; and when the driver refuses that request for some such entry
point (all symbols resolving), create fails with `SharedMemoryConfig`. -/
theorem C6_shared_memory_configuration (cap : DeviceCapability)
    (st : DriverState) (params : executable_params_t) :
    (∀ e st' tr img descs,
      iree_hal_cuda2_native_executable_create cap st params =
        (Except.ok e, st', tr) →
      decode params.executable_data = Except.ok (img, descs) →
      ∀ r ∈ descs, cap.max_shared_memory < r.shared_memory_size →
        DriverCall.setMaxDynamicSharedMemory
          { cu_module := e.cu_module, name := r.name }
          r.shared_memory_size ∈ tr) ∧
    (∀ img descs,
      decode params.executable_data = Except.ok (img, descs) →
      params.declared_count = descs.length →
      cap.instantiateOk = true →
      (∀ r ∈ descs, r.name ∈ cap.deviceSymbols) →
      (∃ r ∈ descs, cap.max_shared_memory < r.shared_memory_size ∧
        cap.sharedMemOptInOk r.name = false) →
      ∃ tr, iree_hal_cuda2_native_executable_create cap st params =
        (Except.error LoadError.sharedMemoryConfig,
         { next_module_id := st.next_module_id + 1 }, tr)) := by
  constructor
  · intro e st' tr img descs h hdec r hr hex
    rcases create_ok_spec cap st params e st' tr h with
      ⟨img2, descs2, hdec2, _hcount, _hinst, hcu, _hst, _hlen, _hget, hopt, _⟩
    rw [hdec2] at hdec
    simp at hdec
    rcases hdec with ⟨_, hdescs⟩
    subst hdescs
    rw [hcu]
    exact hopt r hr hex
  · intro img descs hdec hcount hinst hmem hex
    exact create_of_loop_error cap st params img descs
      LoadError.sharedMemoryConfig hdec hcount hinst
      (resolveLoop_optin_fails cap st.next_module_id params.pipeline_layouts
        descs 0 hmem hex)

/-- A capability whose static shared-memory limit is below matmul's
demand, with the dynamic opt-in succeeding. -/
def capSmallShared : DeviceCapability :=
  { instantiateOk := true, moduleLoadErrorCode := 0,
    deviceSymbols := ["matmul", "relu"],
    sharedMemOptInOk := fun _ => true, max_shared_memory := 1024 }

/-- Trace of the demo create against `capSmallShared`: the opt-in request
for matmul appears between its resolution and relu's. -/
def trSmallShared : List DriverCall :=
  [DriverCall.instantiateModule,
   DriverCall.resolveFunction 0 "matmul",
   DriverCall.setMaxDynamicSharedMemory
     { cu_module := 0, name := "matmul" } 4096,
   DriverCall.resolveFunction 0 "relu"]

/-- Same limit but the driver refuses the opt-in. -/
def capOptInFails : DeviceCapability :=
  { instantiateOk := true, moduleLoadErrorCode := 0,
    deviceSymbols := ["matmul", "relu"],
    sharedMemOptInOk := fun _ => false, max_shared_memory := 1024 }

/-- C6 witness: with a 1024-byte static limit, the successful demo create
contains the opt-in call for matmul's 4096 bytes, and with the opt-in
refused create fails with `SharedMemoryConfig`. -/
theorem C6_shared_memory_configuration_witness :
    iree_hal_cuda2_native_executable_create capSmallShared demoState
      demoParams =
      (Except.ok demoExecutable, { next_module_id := 1 }, trSmallShared) ∧
    capSmallShared.max_shared_memory < matmulRecord.shared_memory_size ∧
    DriverCall.setMaxDynamicSharedMemory
      { cu_module := demoExecutable.cu_module, name := matmulRecord.name }
      matmulRecord.shared_memory_size ∈ trSmallShared ∧
    ∃ tr, iree_hal_cuda2_native_executable_create capOptInFails demoState
        demoParams =
      (Except.error LoadError.sharedMemoryConfig,
       { next_module_id := 1 }, tr) :=
  ⟨rfl, by decide,
   (C6_shared_memory_configuration capSmallShared demoState demoParams).1
     demoExecutable { next_module_id := 1 } trSmallShared [1, 2, 3]
     [matmulRecord, reluRecord] rfl rfl matmulRecord (by decide) (by decide),
   (C6_shared_memory_configuration capOptInFails demoState demoParams).2
     [1, 2, 3] [matmulRecord, reluRecord] rfl rfl rfl (by decide)
     ⟨matmulRecord, by decide, by decide, by decide⟩⟩

/-- C7: decode fails with `MalformedContainer` exactly when structural
parsing fails; it fails with `InvalidDescriptor i` only when record `i`
exists and violates the descriptor constraints, it does fail that way
whenever some record is invalid, and a `blockSize` with a non-positive
component always violates the constraints. -/
theorem C7_decode_error_classification (b : Blob) :
    (decode b = Except.error DecodeError.malformedContainer ↔
      b = Blob.malformed) ∧
    (∀ i, decode b = Except.error (DecodeError.invalidDescriptor i) →
      ∃ img rs r, b = Blob.container img rs ∧ rs.get? i = some r ∧
        recordValid r = false) ∧
    (∀ img rs, b = Blob.container img rs →
      (∃ r ∈ rs, recordValid r = false) →
      ∃ i, decode b = Except.error (DecodeError.invalidDescriptor i)) ∧
    (∀ r : RawRecord,
      (r.block_size.1 = 0 ∨ r.block_size.2.1 = 0 ∨ r.block_size.2.2 = 0) →
      recordValid r = false) := by
  refine ⟨?_, ?_, ?_, ?_⟩
  · cases b with
    | malformed => simp [decode]
    | container img rs =>
      rcases hfi : findInvalid rs 0 with _ | j
      · simp [decode, hfi]
      · simp [decode, hfi]
  · intro i h
    cases b with
    | malformed => simp [decode] at h
    | container img rs =>
      rcases hfi : findInvalid rs 0 with _ | j
      · simp [decode, hfi] at h
      · simp [decode, hfi] at h
        subst h
        rcases findInvalid_some_spec rs 0 j hfi with ⟨_, r, hr, hrv⟩
        rw [Nat.sub_zero] at hr
        exact ⟨img, rs, r, rfl, hr, hrv⟩
  · intro img rs hb hex
    subst hb
    rcases hfi : findInvalid rs 0 with _ | j
    · rw [findInvalid_none_iff] at hfi
      rcases hex with ⟨r, hr, hrv⟩
      rw [hfi r hr] at hrv
      simp at hrv
    · exact ⟨j, by simp [decode, hfi]⟩
  · intro r hbs
    unfold recordValid
    rcases hbs with h | h | h <;> simp [h]

/-- A record with a zero blockSize component, violating the descriptor
constraints. -/
def badRecord : RawRecord :=
  { name := "bad", block_size := (0, 1, 1), shared_memory_size := 0,
    source_filename := "", source_line := 0 }

/-- A structurally well-formed blob whose second record is invalid. -/
def badBlob : Blob := Blob.container [7] [matmulRecord, badRecord]

/-- C7 witness: decoding `badBlob` fails with `InvalidDescriptor 1`, the
offending record exists at index 1 and is invalid, and its zero blockSize
component is what makes it invalid. -/
theorem C7_decode_error_classification_witness :
    decode badBlob = Except.error (DecodeError.invalidDescriptor 1) ∧
    (∃ img rs r, badBlob = Blob.container img rs ∧ rs.get? 1 = some r ∧
      recordValid r = false) ∧
    badRecord.block_size.1 = 0 ∧
    recordValid badRecord = false :=
  ⟨rfl,
   (C7_decode_error_classification badBlob).2.1 1 rfl,
   rfl,
   (C7_decode_error_classification badBlob).2.2.2 badRecord (Or.inl rfl)⟩

/-- C8: two successive creates with identical inputs yield two independent
executables, each holding its own device module (the module handles
differ), and each call instantiates exactly one module — no caching or
deduplication across calls. -/
theorem C8_create_no_caching (cap : DeviceCapability) (st : DriverState)
    (params : executable_params_t)
    (e1 : iree_hal_cuda2_native_executable_t) (st1 : DriverState)
    (tr1 : List DriverCall) (e2 : iree_hal_cuda2_native_executable_t)
    (st2 : DriverState) (tr2 : List DriverCall)
    (h1 : iree_hal_cuda2_native_executable_create cap st params =
      (Except.ok e1, st1, tr1))
    (h2 : iree_hal_cuda2_native_executable_create cap st1 params =
      (Except.ok e2, st2, tr2)) :
    e1.cu_module ≠ e2.cu_module ∧
    countInstantiateCalls tr1 = 1 ∧ countInstantiateCalls tr2 = 1 := by
  rcases create_ok_spec cap st params e1 st1 tr1 h1 with
    ⟨_, _, _, _, _, hcu1, hst1, _, _, _, hc1, _⟩
  rcases create_ok_spec cap st1 params e2 st2 tr2 h2 with
    ⟨_, _, _, _, _, hcu2, _, _, _, _, hc2, _⟩
  subst hst1
  simp at hcu2
  refine ⟨?_, hc1, hc2⟩
  rw [hcu1, hcu2]
  omega

/-- The executable yielded by the second demo create: its own module. -/
def demoExecutable2 : iree_hal_cuda2_native_executable_t :=
  { cu_module := 1,
    entry_points :=
      [mkKernelParams 10 { cu_module := 1, name := "matmul" } matmulRecord,
       mkKernelParams 20 { cu_module := 1, name := "relu" } reluRecord] }

/-- The driver-call trace of the second demo create. -/
def demoTrace2 : List DriverCall :=
  [DriverCall.instantiateModule,
   DriverCall.resolveFunction 1 "matmul",
   DriverCall.resolveFunction 1 "relu"]

/-- C8 witness: running the demo create twice yields module handles 0 and
1 — distinct — with exactly one instantiation in each trace. -/
theorem C8_create_no_caching_witness :
    iree_hal_cuda2_native_executable_create demoCap demoState demoParams =
      (Except.ok demoExecutable, { next_module_id := 1 }, demoTrace) ∧
    iree_hal_cuda2_native_executable_create demoCap { next_module_id := 1 }
      demoParams =
      (Except.ok demoExecutable2, { next_module_id := 2 }, demoTrace2) ∧
    (demoExecutable.cu_module ≠ demoExecutable2.cu_module ∧
     countInstantiateCalls demoTrace = 1 ∧
     countInstantiateCalls demoTrace2 = 1) :=
  ⟨rfl, rfl,
   C8_create_no_caching demoCap demoState demoParams demoExecutable
     { next_module_id := 1 } demoTrace demoExecutable2
     { next_module_id := 2 } demoTrace2 rfl rfl⟩

/-- C9: the accessor is a pure read: on success it returns exactly the
stored table entry for that index (a borrowed element of the executable's
own table), and its result depends on nothing but the executable's
entry-point table — it touches no other state. -/
theorem C9_accessor_pure_read (e : iree_hal_cuda2_native_executable_t)
    (i : Int) :
    (∀ p, iree_hal_cuda2_native_executable_entry_point_kernel_params e i =
        Except.ok p →
      ∃ h : i.toNat < e.entry_points.length,
        p = e.entry_points.get ⟨i.toNat, h⟩ ∧ p ∈ e.entry_points) ∧
    (∀ e2 : iree_hal_cuda2_native_executable_t,
      e.entry_points = e2.entry_points →
      iree_hal_cuda2_native_executable_entry_point_kernel_params e i =
        iree_hal_cuda2_native_executable_entry_point_kernel_params e2 i) := by
  constructor
  · intro p h
    unfold iree_hal_cuda2_native_executable_entry_point_kernel_params at h
    by_cases hcond : 0 ≤ i ∧ i < (e.entry_points.length : Int)
    · rw [dif_pos hcond] at h
      simp at h
      have hlt : i.toNat < e.entry_points.length := by omega
      exact ⟨hlt, h.symm, by rw [h.symm]; exact List.get_mem _ _ _⟩
    · rw [dif_neg hcond] at h
      simp at h
  · intro e2 he
    cases e with
    | mk cm eps =>
      cases e2 with
      | mk cm2 eps2 =>
        simp at he
        subst he
        rfl

/-- C9 witness: reading entry point 1 of the demo executable returns the
stored relu entry, and the result is unchanged when everything but the
table differs. -/
theorem C9_accessor_pure_read_witness :
    iree_hal_cuda2_native_executable_entry_point_kernel_params
      demoExecutable 1 =
      Except.ok (mkKernelParams 20 { cu_module := 0, name := "relu" }
        reluRecord) ∧
    (∃ h : (1 : Int).toNat < demoExecutable.entry_points.length,
      mkKernelParams 20 { cu_module := 0, name := "relu" } reluRecord =
        demoExecutable.entry_points.get ⟨(1 : Int).toNat, h⟩ ∧
      mkKernelParams 20 { cu_module := 0, name := "relu" } reluRecord ∈
        demoExecutable.entry_points) ∧
    iree_hal_cuda2_native_executable_entry_point_kernel_params
      demoExecutable 1 =
    iree_hal_cuda2_native_executable_entry_point_kernel_params
      { cu_module := 42, entry_points := demoExecutable.entry_points } 1 :=
  ⟨rfl,
   (C9_accessor_pure_read demoExecutable 1).1
     (mkKernelParams 20 { cu_module := 0, name := "relu" } reluRecord) rfl,
   (C9_accessor_pure_read demoExecutable 1).2
     { cu_module := 42, entry_points := demoExecutable.entry_points } rfl⟩

/-- C10: at the public interface the entry-point index is a signed 32-bit
integer and the per-entry-point numeric fields are 32-bit unsigned: every
negative index is representable and rejected as out of range, a
successfully addressed index never exceeds `2^31 - 1`, and every decoded
`blockSize` component and `sharedMemoryBytes` value is at most
`2^32 - 1`. -/
theorem C10_interface_integer_widths
    (e : iree_hal_cuda2_native_executable_t) (i : Int) (b : Blob)
    (img : List Nat) (descs : List RawRecord) :
    (INT32_MIN ≤ i → i < 0 →
      int32_representable i ∧
      iree_hal_cuda2_native_executable_entry_point_kernel_params e i =
        Except.error LookupError.indexOutOfRange) ∧
    (∀ p, int32_representable i →
      iree_hal_cuda2_native_executable_entry_point_kernel_params e i =
        Except.ok p →
      0 ≤ i ∧ i ≤ INT32_MAX) ∧
    (decode b = Except.ok (img, descs) →
      ∀ r ∈ descs,
        r.block_size.1 ≤ UINT32_MAX ∧ r.block_size.2.1 ≤ UINT32_MAX ∧
        r.block_size.2.2 ≤ UINT32_MAX ∧
        r.shared_memory_size ≤ UINT32_MAX) := by
  refine ⟨?_, ?_, ?_⟩
  · intro hmin hneg
    have hM : (0 : Int) ≤ INT32_MAX := by decide
    refine ⟨⟨hmin, by omega⟩, ?_⟩
    unfold iree_hal_cuda2_native_executable_entry_point_kernel_params
    rw [dif_neg]
    intro hcond
    omega
  · intro p hrep h
    unfold iree_hal_cuda2_native_executable_entry_point_kernel_params at h
    by_cases hcond : 0 ≤ i ∧ i < (e.entry_points.length : Int)
    · exact ⟨hcond.1, hrep.2⟩
    · rw [dif_neg hcond] at h
      simp at h
  · intro hdec r hr
    cases b with
    | malformed => simp [decode] at hdec
    | container img2 rs =>
      rcases hfi : findInvalid rs 0 with _ | j
      · simp [decode, hfi] at hdec
        rcases hdec with ⟨_, hrs⟩
        subst hrs
        have hv := (findInvalid_none_iff rs 0).mp hfi r hr
        simp [recordValid] at hv
        refine ⟨?_, ?_, ?_, ?_⟩ <;> tauto
      · simp [decode, hfi] at hdec

/-- C10 witness: index -7 is int32-representable and rejected, and the
demo package's decoded matmul record respects every uint32 bound. -/
theorem C10_interface_integer_widths_witness :
    (INT32_MIN ≤ (-7 : Int) ∧ (-7 : Int) < 0) ∧
    (int32_representable (-7) ∧
      iree_hal_cuda2_native_executable_entry_point_kernel_params
        demoExecutable (-7) = Except.error LookupError.indexOutOfRange) ∧
    decode demoBlob = Except.ok ([1, 2, 3], [matmulRecord, reluRecord]) ∧
    (matmulRecord.block_size.1 ≤ UINT32_MAX ∧
     matmulRecord.block_size.2.1 ≤ UINT32_MAX ∧
     matmulRecord.block_size.2.2 ≤ UINT32_MAX ∧
     matmulRecord.shared_memory_size ≤ UINT32_MAX) :=
  ⟨⟨by decide, by decide⟩,
   (C10_interface_integer_widths demoExecutable (-7) demoBlob [1, 2, 3]
     [matmulRecord, reluRecord]).1 (by decide) (by decide),
   rfl,
   (C10_interface_integer_widths demoExecutable (-7) demoBlob [1, 2, 3]
     [matmulRecord, reluRecord]).2.2 rfl matmulRecord (by decide)⟩
